import Mathlib

/-!
Verification of the Neon Snake repository (`src/neon_snake/`).

This file gives a shallow embedding of the gameplay and audio code that the
checked properties talk about, and proves or refutes each property against
that embedding.  Machine floats of the Python source are modelled by exact
rationals `ℚ`; the square root appearing in `math.hypot` and the sine used by
the synthesizer are handled by `Real.sqrt` on the specification side and by
an injected oracle on the executable side (the source itself notes that the
noise stream is meant to be injectable).  Python's `int()` truncation, `//`
floor division, `%` modulo and banker's `round()` are modelled explicitly.
-/

namespace NeonSnake

/-! ## Python numeric primitives -/

/-- Python `int(q)`: truncation toward zero. -/
def pyTrunc (q : ℚ) : ℤ := if 0 ≤ q then ⌊q⌋ else ⌈q⌉

/-- Python `round(q)` on a rational: round half to even (banker's rounding). -/
def pyRound (q : ℚ) : ℤ :=
  if q - ⌊q⌋ < 1/2 then ⌊q⌋
  else if 1/2 < q - ⌊q⌋ then ⌊q⌋ + 1
  else if ⌊q⌋ % 2 = 0 then ⌊q⌋ else ⌊q⌋ + 1

/-- Python `x % 1.0` for the phase accumulator: the fractional part. -/
def fract (q : ℚ) : ℚ := q - ⌊q⌋

theorem pyTrunc_nonneg_eq_floor {q : ℚ} (h : 0 ≤ q) : pyTrunc q = ⌊q⌋ := by
  simp [pyTrunc, h]

theorem pyRound_mem (q : ℚ) : pyRound q = ⌊q⌋ ∨ pyRound q = ⌊q⌋ + 1 := by
  unfold pyRound
  split_ifs <;> simp

theorem pyRound_le {q : ℚ} {c : ℤ} (h : q ≤ c) : pyRound q ≤ c := by
  have hfl : ⌊q⌋ ≤ c := by
    calc ⌊q⌋ ≤ ⌊(c : ℚ)⌋ := Int.floor_le_floor h
    _ = c := Int.floor_intCast c
  have hplus : ¬(q - ⌊q⌋ < 1/2) → ⌊q⌋ + 1 ≤ c := by
    intro hge
    push_neg at hge
    by_contra hlt
    have hceq : ⌊q⌋ = c := by omega
    have hcq : ((⌊q⌋ : ℤ) : ℚ) = (c : ℚ) := by exact_mod_cast hceq
    have hqle : q - (⌊q⌋ : ℚ) ≤ 0 := by rw [hcq]; linarith
    linarith
  unfold pyRound
  split_ifs with h1 h2 h3
  · exact hfl
  · exact hplus h1
  · exact hfl
  · exact hplus h1

theorem le_pyRound {q : ℚ} {c : ℤ} (h : (c : ℚ) ≤ q) : c ≤ pyRound q := by
  have hfl : c ≤ ⌊q⌋ := Int.le_floor.mpr h
  rcases pyRound_mem q with hm | hm <;> omega

/-! ## Constants (`config.py`) -/

def BLOCK : ℤ := 16
def WINDOW_SIZE : ℤ := 480
def GRID_CELLS : ℤ := 30
def MOVES_PER_SECOND : ℚ := 10
def SPEED_STEP : ℚ := 60
def MAX_MOVES_PER_SECOND : ℚ := 16
def BONUS_DURATION : ℚ := 7/2
def BONUS_POINTS : ℕ := 35
def BONUS_CHANCE : ℚ := 45/100

/-! ## Effect pools (`effects.py`) -/

/-- A particle record (`effects.Particle`); the color triple and the optional
`type` tag ride along untouched by the update. -/
structure Particle where
  x : ℚ
  y : ℚ
  vx : ℚ
  vy : ℚ
  life : ℚ
  size : ℚ
  color : ℕ × ℕ × ℕ
  kind : Option String := none
deriving DecidableEq, Repr

/-- `effects.GridRipple`. -/
structure GridRipple where
  x : ℚ
  y : ℚ
  duration : ℚ
  timer : ℚ
  max_radius : ℚ
  band_width : ℚ
  intensity : ℚ
  color : ℕ × ℕ × ℕ
deriving DecidableEq, Repr

/-- `effects.SnakeWash`. -/
structure SnakeWash where
  color : ℕ × ℕ × ℕ
  progress : ℚ
  speed : ℚ
  width : ℚ
deriving DecidableEq, Repr

/-- `effects.update_particles`. -/
def update_particles (particles : List Particle) (dt : ℚ) : List Particle :=
  if dt ≤ 0 then particles
  else
    (particles.map (fun p =>
      { p with
        x := p.x + p.vx * dt
        y := p.y + p.vy * dt
        life := max 0 (p.life - dt) })).filter (fun p => 0 < p.life)

/-- `effects.update_ripples`. -/
def update_ripples (ripples : List GridRipple) (dt : ℚ) : List GridRipple :=
  if dt ≤ 0 then ripples
  else
    (ripples.map (fun r => { r with timer := max 0 (r.timer - dt) })).filter
      (fun r => 0 < r.timer)

/-- `effects.update_snake_washes`. -/
def update_snake_washes (washes : List SnakeWash) (dt : ℚ) (max_index : ℤ) :
    List SnakeWash :=
  if dt ≤ 0 then washes
  else
    (washes.map (fun w => { w with progress := w.progress + w.speed * dt })).filter
      (fun w => w.progress - w.width ≤ max_index)

/-- C5: for every particle pool, ripple pool, wash pool, max index and
`dt ≤ 0`, the three effect updates return the input pool unchanged. -/
theorem C5_effect_updates_noop_on_nonpositive_dt
    (particles : List Particle) (ripples : List GridRipple)
    (washes : List SnakeWash) (max_index : ℤ) (dt : ℚ) (hdt : dt ≤ 0) :
    update_particles particles dt = particles ∧
    update_ripples ripples dt = ripples ∧
    update_snake_washes washes dt max_index = washes := by
  refine ⟨?_, ?_, ?_⟩ <;> simp [update_particles, update_ripples, update_snake_washes, hdt]

theorem C5_effect_updates_noop_witness :
    update_particles [{ x := 1, y := 2, vx := 3, vy := 4, life := 5, size := 6,
                        color := (1, 2, 3) }] 0 =
      [{ x := 1, y := 2, vx := 3, vy := 4, life := 5, size := 6,
         color := (1, 2, 3) }] ∧
    update_ripples [{ x := 0, y := 0, duration := 1, timer := 1, max_radius := 10,
                      band_width := 1, intensity := 1, color := (0, 0, 0) }] 0 =
      [{ x := 0, y := 0, duration := 1, timer := 1, max_radius := 10,
         band_width := 1, intensity := 1, color := (0, 0, 0) }] ∧
    update_snake_washes [{ color := (9, 9, 9), progress := 0, speed := 11,
                           width := 6 }] 0 3 =
      [{ color := (9, 9, 9), progress := 0, speed := 11, width := 6 }] :=
  C5_effect_updates_noop_on_nonpositive_dt _ _ _ 3 0 le_rfl

/-! ## Enemies (`enemies.py`) -/

/-- `enemies.RippleEnemy`. -/
structure RippleEnemy where
  x : ℚ
  y : ℚ
  speed : ℚ
  size : ℕ
  color : ℕ × ℕ × ℕ
  age : ℚ := 0
  warmup : ℚ := 45/100
deriving DecidableEq, Repr

/-- `1.0 - (ripple.timer / ripple.duration)` in `cull_enemies_hit_by_ripples`. -/
def rippleProgress (r : GridRipple) : ℚ := 1 - r.timer / r.duration

/-- `radius_cells = ripple.max_radius * progress`. -/
def rippleRadiusCells (r : GridRipple) : ℚ := r.max_radius * rippleProgress r

/-- The square of the pixel distance `hypot(enemy.x - ripple.x, enemy.y - ripple.y)`
divided by `BLOCK`, i.e. the square of `dist_cells`; exact in `ℚ`. -/
def enemyDistSqCells (e : RippleEnemy) (r : GridRipple) : ℚ :=
  ((e.x - r.x) ^ 2 + (e.y - r.y) ^ 2) / ((BLOCK : ℚ)) ^ 2

/-- `abs(dist_cells - radius_cells) <= ripple.band_width`: the enemy sits inside
the ripple's annular band.  This is the real-valued test of the source, with
`dist_cells = hypot(...) / BLOCK`. -/
def EnemyInBand (e : RippleEnemy) (r : GridRipple) : Prop :=
  |Real.sqrt (((e.x - r.x) ^ 2 + (e.y - r.y) ^ 2 : ℚ) : ℝ) / ((BLOCK : ℚ) : ℝ) -
      ((rippleRadiusCells r : ℚ) : ℝ)| ≤ ((r.band_width : ℚ) : ℝ)

/-- Executable band test: the guards of the source loop body plus a square-root
free encoding of `EnemyInBand` (squares compared in `ℚ`);
`enemyInRippleBand_iff` proves it equivalent to the source's real-valued test. -/
def enemyInRippleBand (e : RippleEnemy) (r : GridRipple) : Bool :=
  decide (0 < r.duration) && decide (0 < rippleProgress r) &&
    (decide (0 ≤ rippleRadiusCells r + r.band_width) &&
      decide (enemyDistSqCells e r ≤ (rippleRadiusCells r + r.band_width) ^ 2)) &&
    (decide (rippleRadiusCells r - r.band_width ≤ 0) ||
      decide ((rippleRadiusCells r - r.band_width) ^ 2 ≤ enemyDistSqCells e r))

/-- A square-root-free characterisation of `|√s / B - c| ≤ bw` for `0 ≤ s`,
`0 < B`. -/
theorem abs_sqrt_div_sub_le_iff {s c bw B : ℝ} (hs : 0 ≤ s) (hB : 0 < B) :
    |Real.sqrt s / B - c| ≤ bw ↔
      (0 ≤ c + bw ∧ s / B ^ 2 ≤ (c + bw) ^ 2) ∧
        (c - bw ≤ 0 ∨ (c - bw) ^ 2 ≤ s / B ^ 2) := by
  have hd0 : 0 ≤ Real.sqrt s / B := div_nonneg (Real.sqrt_nonneg s) hB.le
  have hdsq : (Real.sqrt s / B) ^ 2 = s / B ^ 2 := by
    rw [div_pow, Real.sq_sqrt hs]
  rw [abs_le]
  constructor
  · rintro ⟨h1, h2⟩
    have hdc : Real.sqrt s / B ≤ c + bw := by linarith
    have hcd : c - bw ≤ Real.sqrt s / B := by linarith
    refine ⟨⟨le_trans hd0 hdc, ?_⟩, ?_⟩
    · rw [← hdsq]; exact pow_le_pow_left₀ hd0 hdc 2
    · rcases le_or_lt (c - bw) 0 with h | h
      · exact Or.inl h
      · exact Or.inr (by rw [← hdsq]; exact pow_le_pow_left₀ h.le hcd 2)
  · rintro ⟨⟨hc0, hsq⟩, hlow⟩
    have hdc : Real.sqrt s / B ≤ c + bw := by
      have h1 : Real.sqrt ((Real.sqrt s / B) ^ 2) ≤ Real.sqrt ((c + bw) ^ 2) :=
        Real.sqrt_le_sqrt (by rw [hdsq]; exact hsq)
      rwa [Real.sqrt_sq hd0, Real.sqrt_sq hc0] at h1
    have hcd : c - bw ≤ Real.sqrt s / B := by
      rcases hlow with h | h
      · linarith
      · have h1 : Real.sqrt ((c - bw) ^ 2) ≤ Real.sqrt ((Real.sqrt s / B) ^ 2) :=
          Real.sqrt_le_sqrt (by rw [hdsq]; exact h)
        rw [Real.sqrt_sq_eq_abs, Real.sqrt_sq hd0] at h1
        exact le_trans (le_abs_self _) h1
    exact ⟨by linarith, by linarith⟩

/-- The executable band test agrees with the source's guards plus the
real-valued window test. -/
theorem enemyInRippleBand_iff (e : RippleEnemy) (r : GridRipple) :
    enemyInRippleBand e r = true ↔
      0 < r.duration ∧ 0 < rippleProgress r ∧ EnemyInBand e r := by
  have hs : (0 : ℝ) ≤ (((e.x - r.x) ^ 2 + (e.y - r.y) ^ 2 : ℚ) : ℝ) := by
    push_cast
    positivity
  have hB : (0 : ℝ) < ((BLOCK : ℚ) : ℝ) := by norm_num [BLOCK]
  unfold enemyInRippleBand EnemyInBand
  simp only [Bool.and_eq_true, Bool.or_eq_true, decide_eq_true_eq]
  rw [abs_sqrt_div_sub_le_iff hs hB]
  have hcast : (((e.x - r.x) ^ 2 + (e.y - r.y) ^ 2 : ℚ) : ℝ) / ((BLOCK : ℚ) : ℝ) ^ 2 =
      ((enemyDistSqCells e r : ℚ) : ℝ) := by
    unfold enemyDistSqCells
    push_cast
    ring
  rw [hcast]
  constructor
  · rintro ⟨⟨⟨hd, hp⟩, h1, h2⟩, h3⟩
    refine ⟨hd, hp, ⟨⟨?_, ?_⟩, ?_⟩⟩
    · exact_mod_cast h1
    · exact_mod_cast h2
    · rcases h3 with h | h
      · exact Or.inl (by exact_mod_cast h)
      · exact Or.inr (by exact_mod_cast h)
  · rintro ⟨hd, hp, ⟨⟨h1, h2⟩, h3⟩⟩
    refine ⟨⟨⟨hd, hp⟩, ?_, ?_⟩, ?_⟩
    · exact_mod_cast h1
    · exact_mod_cast h2
    · rcases h3 with h | h
      · exact Or.inl (by exact_mod_cast h)
      · exact Or.inr (by exact_mod_cast h)

/-- `enemies.cull_enemies_hit_by_ripples`: split the live set into survivors and
destroyed, an enemy being destroyed when some ripple's band covers it. -/
def cull_enemies_hit_by_ripples (enemies : List RippleEnemy)
    (ripples : List GridRipple) : List RippleEnemy × List RippleEnemy :=
  if enemies.isEmpty || ripples.isEmpty then (enemies, [])
  else
    (enemies.filter (fun e => !(ripples.any (fun r => enemyInRippleBand e r))),
      enemies.filter (fun e => ripples.any (fun r => enemyInRippleBand e r)))

/-- The early-out for empty inputs changes nothing: culling is plain
partitioning by the band test. -/
theorem cull_eq_filters (enemies : List RippleEnemy) (ripples : List GridRipple) :
    cull_enemies_hit_by_ripples enemies ripples =
      (enemies.filter (fun e => !(ripples.any (fun r => enemyInRippleBand e r))),
        enemies.filter (fun e => ripples.any (fun r => enemyInRippleBand e r))) := by
  unfold cull_enemies_hit_by_ripples
  split_ifs with h
  · rcases Bool.or_eq_true_iff.mp h with he | hr
    · rw [List.isEmpty_iff.mp he]
      rfl
    · rw [List.isEmpty_iff.mp hr]
      simp
  · rfl

/-- Pointwise reading of the executable band test, with the progress guard
expressed as `timer < duration`. -/
theorem enemyInRippleBand_iff_timer_lt (e : RippleEnemy) (r : GridRipple) :
    enemyInRippleBand e r = true ↔
      0 < r.duration ∧ r.timer < r.duration ∧ EnemyInBand e r := by
  rw [enemyInRippleBand_iff]
  unfold rippleProgress
  constructor
  · rintro ⟨hd, hp, hb⟩
    have h1 : r.timer / r.duration < 1 := by linarith
    exact ⟨hd, (div_lt_one hd).mp h1, hb⟩
  · rintro ⟨hd, ht, hb⟩
    have h1 : r.timer / r.duration < 1 := (div_lt_one hd).mpr ht
    exact ⟨hd, by linarith, hb⟩

/-- C3 (amended): an enemy is removed by the cull (and reported destroyed) iff
some ripple has positive duration, strictly positive expansion progress
(`timer < duration`), and its band window `|D - max_radius*(1 - timer/duration)|
≤ band_width` covers the enemy's distance-in-cells `D`; otherwise the enemy
survives. -/
theorem C3_cull_destroys_iff_band (enemies : List RippleEnemy)
    (ripples : List GridRipple) (e : RippleEnemy) (he : e ∈ enemies) :
    (e ∈ (cull_enemies_hit_by_ripples enemies ripples).2 ↔
      ∃ r ∈ ripples, 0 < r.duration ∧ r.timer < r.duration ∧ EnemyInBand e r) ∧
    (e ∈ (cull_enemies_hit_by_ripples enemies ripples).1 ↔
      ¬∃ r ∈ ripples, 0 < r.duration ∧ r.timer < r.duration ∧ EnemyInBand e r) := by
  rw [cull_eq_filters]
  constructor
  · rw [List.mem_filter]
    constructor
    · rintro ⟨_, hany⟩
      obtain ⟨r, hr, hf⟩ := List.any_eq_true.mp hany
      exact ⟨r, hr, (enemyInRippleBand_iff_timer_lt e r).mp hf⟩
    · rintro ⟨r, hr, hcond⟩
      exact ⟨he, List.any_eq_true.mpr
        ⟨r, hr, (enemyInRippleBand_iff_timer_lt e r).mpr hcond⟩⟩
  · rw [List.mem_filter]
    constructor
    · rintro ⟨_, hnot⟩ ⟨r, hr, hcond⟩
      have hany : ripples.any (fun r => enemyInRippleBand e r) = true :=
        List.any_eq_true.mpr ⟨r, hr, (enemyInRippleBand_iff_timer_lt e r).mpr hcond⟩
      rw [hany] at hnot
      simp at hnot
    · intro hn
      refine ⟨he, ?_⟩
      cases hany : ripples.any (fun r => enemyInRippleBand e r) with
      | false => rfl
      | true =>
          obtain ⟨r, hr, hf⟩ := List.any_eq_true.mp hany
          exact absurd ⟨r, hr, (enemyInRippleBand_iff_timer_lt e r).mp hf⟩ hn

theorem C3_cull_destroys_iff_band_witness :
    (({ x := 88, y := 8, speed := 1, size := 10, color := (255, 70, 90) } : RippleEnemy) ∈
        (cull_enemies_hit_by_ripples
          [{ x := 88, y := 8, speed := 1, size := 10, color := (255, 70, 90) }]
          [{ x := 8, y := 8, duration := 1, timer := 1/2, max_radius := 10,
             band_width := 1, intensity := 1, color := (0, 0, 0) }]).2 ↔
      ∃ r ∈ [({ x := 8, y := 8, duration := 1, timer := 1/2, max_radius := 10,
                band_width := 1, intensity := 1, color := (0, 0, 0) } : GridRipple)],
        0 < r.duration ∧ r.timer < r.duration ∧
          EnemyInBand { x := 88, y := 8, speed := 1, size := 10, color := (255, 70, 90) } r) ∧
    (({ x := 88, y := 8, speed := 1, size := 10, color := (255, 70, 90) } : RippleEnemy) ∈
        (cull_enemies_hit_by_ripples
          [{ x := 88, y := 8, speed := 1, size := 10, color := (255, 70, 90) }]
          [{ x := 8, y := 8, duration := 1, timer := 1/2, max_radius := 10,
             band_width := 1, intensity := 1, color := (0, 0, 0) }]).1 ↔
      ¬∃ r ∈ [({ x := 8, y := 8, duration := 1, timer := 1/2, max_radius := 10,
                 band_width := 1, intensity := 1, color := (0, 0, 0) } : GridRipple)],
        0 < r.duration ∧ r.timer < r.duration ∧
          EnemyInBand { x := 88, y := 8, speed := 1, size := 10, color := (255, 70, 90) } r) :=
  C3_cull_destroys_iff_band _ _ _ (List.mem_singleton.mpr rfl)

/-- Culling a single enemy against a single ripple that misses it keeps the
enemy. -/
theorem cull_singleton_not_hit (e : RippleEnemy) (r : GridRipple)
    (h : enemyInRippleBand e r = false) :
    cull_enemies_hit_by_ripples [e] [r] = ([e], []) := by
  rw [cull_eq_filters]
  simp [List.filter, h]

/-- C3 counterexample: a freshly spawned ripple (`timer = duration`, positive
duration) whose window `|D - max_radius*(1 - timer/duration)| = |0 - 0| ≤
band_width` covers an enemy standing at its origin, yet the cull keeps the
enemy and reports nothing destroyed (the source skips ripples whose expansion
progress is not yet positive). -/
theorem C3_cull_misses_zero_progress_ripple :
    (0 < ({ x := 8, y := 8, duration := 1, timer := 1, max_radius := 10,
            band_width := 1, intensity := 1, color := (0, 0, 0) } : GridRipple).duration ∧
      EnemyInBand { x := 8, y := 8, speed := 1, size := 10, color := (255, 70, 90) }
        { x := 8, y := 8, duration := 1, timer := 1, max_radius := 10,
          band_width := 1, intensity := 1, color := (0, 0, 0) }) ∧
    cull_enemies_hit_by_ripples
        [{ x := 8, y := 8, speed := 1, size := 10, color := (255, 70, 90) }]
        [{ x := 8, y := 8, duration := 1, timer := 1, max_radius := 10,
           band_width := 1, intensity := 1, color := (0, 0, 0) }] =
      ([{ x := 8, y := 8, speed := 1, size := 10, color := (255, 70, 90) }], []) := by
  refine ⟨⟨by norm_num, ?_⟩, ?_⟩
  · unfold EnemyInBand rippleRadiusCells rippleProgress
    norm_num
  · refine cull_singleton_not_hit _ _ ?_
    unfold enemyInRippleBand rippleProgress
    norm_num

/-! ## Difficulty & spawn scheduler (`game.py`) -/

/-- The slice of `NeonSnake` state the enemy-spawn scheduler reads and writes. -/
structure SchedulerState where
  enemy_spawns_active : Bool
  enemy_spawn_timer : ℚ
  enemies : ℕ
  pending_spawns : ℕ
  fruits_eaten : ℕ
  score : ℕ
  current_speed : ℚ
deriving DecidableEq, Repr

/-- `NeonSnake._desired_enemy_count`. -/
def desired_enemy_count (fruits_eaten : ℕ) (score : ℕ) : ℕ :=
  let wave_bonus := fruits_eaten / 2
  let score_bonus := score / 80
  let desired := 1 + wave_bonus + score_bonus
  max 1 (min 5 desired)

/-- The `difficulty` local of `NeonSnake._schedule_enemy_spawn`. -/
def spawnDifficulty (st : SchedulerState) : ℚ :=
  let speed_factor := max 1 (st.current_speed / MOVES_PER_SECOND)
  let score_factor := min 3 ((st.score : ℚ) / 60)
  let fruit_factor := min 1 ((st.fruits_eaten : ℚ) / 6)
  1 + (45/100) * (speed_factor - 1) + (3/10) * score_factor + (25/100) * fruit_factor

/-- The deficit as `_schedule_enemy_spawn` computes it:
`max(0, desired - (enemies + pending))`. -/
def scheduleDeficit (st : SchedulerState) : ℤ :=
  max 0 ((desired_enemy_count st.fruits_eaten st.score : ℤ) -
    (st.enemies + st.pending_spawns : ℕ))

/-- The `urgency` local of `NeonSnake._schedule_enemy_spawn`. -/
def spawnUrgency (st : SchedulerState) : ℚ :=
  if scheduleDeficit st ≠ 0 then 1 + (2/5) * (scheduleDeficit st : ℚ) else 4/5

/-- The delay computed by `NeonSnake._schedule_enemy_spawn` (with the
`random.uniform(1.8, 2.6)` draw injected as `base_delay`); the caller stores it
into `enemy_spawn_timer`. -/
def schedule_enemy_spawn_delay (st : SchedulerState) (base_delay : ℚ) : ℚ :=
  max (45/100) (base_delay / max (3/5) (spawnDifficulty st / spawnUrgency st))

/-- Successes of the spawn batch loop of `_tick_enemy_spawn_timer`: attempts
run while the budget lasts and stop at the first failed spawn; `spawn_ok i`
is the outcome of the `i`-th `_spawn_enemy` call. -/
def spawnBatchSuccesses (spawn_ok : ℕ → Bool) : ℕ → ℕ → ℕ
  | 0, _ => 0
  | budget + 1, i =>
    if spawn_ok i then spawnBatchSuccesses spawn_ok budget (i + 1) + 1 else 0

/-- `NeonSnake._tick_enemy_spawn_timer`: countdown, deficit check, spawn batch
(each success registers a pending telegraph marker), and rescheduling —
`0.4` s quick retry when the batch spawned nothing. -/
def tick_enemy_spawn_timer (st : SchedulerState) (dt : ℚ) (base_delay : ℚ)
    (spawn_ok : ℕ → Bool) : SchedulerState :=
  if st.enemy_spawns_active = false ∨ dt ≤ 0 then st
  else
    let st1 := { st with enemy_spawn_timer := max 0 (st.enemy_spawn_timer - dt) }
    if 0 < st1.enemy_spawn_timer then st1
    else
      let desired := desired_enemy_count st1.fruits_eaten st1.score
      let deficit : ℤ := (desired : ℤ) - (st1.enemies + st1.pending_spawns : ℕ)
      if deficit ≤ 0 then
        { st1 with enemy_spawn_timer := schedule_enemy_spawn_delay st1 base_delay }
      else
        let spawn_budget := max 1 (min 3 deficit)
        let spawned := spawnBatchSuccesses spawn_ok spawn_budget.toNat 0
        let st2 := { st1 with pending_spawns := st1.pending_spawns + spawned }
        if 0 < spawned then
          { st2 with enemy_spawn_timer := schedule_enemy_spawn_delay st2 base_delay }
        else
          { st2 with enemy_spawn_timer := 2/5 }

/-- C8: the desired concurrent enemy count is
`1 + floor(fruits/2) + floor(score/80)` clamped to `[1, 5]`, hence always in
`[1, 5]`. -/
theorem C8_desired_enemy_count_clamped (fruits_eaten score : ℕ) :
    desired_enemy_count fruits_eaten score =
      max 1 (min 5 (1 + fruits_eaten / 2 + score / 80)) ∧
    1 ≤ desired_enemy_count fruits_eaten score ∧
    desired_enemy_count fruits_eaten score ≤ 5 := by
  refine ⟨rfl, le_max_left _ _, ?_⟩
  show max 1 (min 5 (1 + fruits_eaten / 2 + score / 80)) ≤ 5
  omega

theorem spawnBatchSuccesses_all_fail (spawn_ok : ℕ → Bool)
    (h : ∀ i, spawn_ok i = false) : ∀ n i, spawnBatchSuccesses spawn_ok n i = 0 := by
  intro n i
  cases n with
  | zero => rfl
  | succ m => simp [spawnBatchSuccesses, h]

theorem spawnBatchSuccesses_pos (spawn_ok : ℕ → Bool) (n : ℕ) (hn : 0 < n)
    (h : spawn_ok 0 = true) : 0 < spawnBatchSuccesses spawn_ok n 0 := by
  cases n with
  | zero => omega
  | succ m => simp [spawnBatchSuccesses, h]

theorem spawnBatchSuccesses_zero_of_first_fails (spawn_ok : ℕ → Bool) (n : ℕ)
    (h : spawn_ok 0 = false) : spawnBatchSuccesses spawn_ok n 0 = 0 := by
  cases n with
  | zero => rfl
  | succ m => simp [spawnBatchSuccesses, h]

/-- What one tick does once the countdown expires (`timer ≤ dt`). -/
theorem tick_on_expiry (st : SchedulerState) (dt base_delay : ℚ) (f : ℕ → Bool)
    (hact : st.enemy_spawns_active = true) (hdt : 0 < dt)
    (hexp : st.enemy_spawn_timer ≤ dt) :
    tick_enemy_spawn_timer st dt base_delay f =
      (let st1 : SchedulerState := { st with enemy_spawn_timer := 0 }
       let deficit : ℤ := (desired_enemy_count st.fruits_eaten st.score : ℤ) -
         (st.enemies + st.pending_spawns : ℕ)
       if deficit ≤ 0 then
         { st1 with enemy_spawn_timer := schedule_enemy_spawn_delay st1 base_delay }
       else
         let spawned := spawnBatchSuccesses f (max 1 (min 3 deficit)).toNat 0
         let st2 : SchedulerState := { st1 with pending_spawns := st.pending_spawns + spawned }
         if 0 < spawned then
           { st2 with enemy_spawn_timer := schedule_enemy_spawn_delay st2 base_delay }
         else
           { st2 with enemy_spawn_timer := 2/5 }) := by
  unfold tick_enemy_spawn_timer
  rw [if_neg (by simp [hact]; linarith)]
  have h0 : max 0 (st.enemy_spawn_timer - dt) = 0 := max_eq_left (by linarith)
  simp only [h0]
  rw [if_neg (lt_irrefl 0)]

/-- C6 (amended): whenever the countdown expires while spawning is active, the
scheduler assigns either the difficulty-formula value
`max(0.45, base / max(0.6, difficulty/urgency)) ≥ 0.45` (when no deficit
exists, or when the batch spawned at least one enemy) or the fixed quick-retry
delay `0.4` s (when a positive-deficit batch spawned nothing); every assigned
value is therefore at least `0.4`, not `0.45`. -/
theorem C6_spawn_timer_schedule (st : SchedulerState) (dt base_delay : ℚ)
    (spawn_ok : ℕ → Bool) (hact : st.enemy_spawns_active = true) (hdt : 0 < dt)
    (hexp : st.enemy_spawn_timer ≤ dt)
    (_hbase : 9/5 ≤ base_delay ∧ base_delay ≤ 13/5) :
    (2/5 : ℚ) ≤ (tick_enemy_spawn_timer st dt base_delay spawn_ok).enemy_spawn_timer ∧
    (∀ s : SchedulerState, ∀ b : ℚ,
      schedule_enemy_spawn_delay s b =
        max (45/100) (b / max (3/5) (spawnDifficulty s / spawnUrgency s)) ∧
      45/100 ≤ schedule_enemy_spawn_delay s b) ∧
    ((tick_enemy_spawn_timer st dt base_delay spawn_ok).enemy_spawn_timer = 2/5 ∨
      ∃ s : SchedulerState,
        (tick_enemy_spawn_timer st dt base_delay spawn_ok).enemy_spawn_timer =
          schedule_enemy_spawn_delay s base_delay) := by
  have hsched : ∀ s : SchedulerState, ∀ b : ℚ,
      schedule_enemy_spawn_delay s b =
        max (45/100) (b / max (3/5) (spawnDifficulty s / spawnUrgency s)) ∧
      45/100 ≤ schedule_enemy_spawn_delay s b :=
    fun s b => ⟨rfl, le_max_left _ _⟩
  rw [tick_on_expiry st dt base_delay spawn_ok hact hdt hexp]
  simp only []
  split_ifs with h1 h2
  · refine ⟨?_, hsched, Or.inr ⟨_, rfl⟩⟩
    show (2/5 : ℚ) ≤ schedule_enemy_spawn_delay _ base_delay
    unfold schedule_enemy_spawn_delay
    exact le_trans (by norm_num) (le_max_left _ _)
  · refine ⟨?_, hsched, Or.inr ⟨_, rfl⟩⟩
    show (2/5 : ℚ) ≤ schedule_enemy_spawn_delay _ base_delay
    unfold schedule_enemy_spawn_delay
    exact le_trans (by norm_num) (le_max_left _ _)
  · exact ⟨le_refl _, hsched, Or.inl rfl⟩

theorem C6_spawn_timer_schedule_witness :
    ((2/5 : ℚ) ≤ (tick_enemy_spawn_timer
        { enemy_spawns_active := true, enemy_spawn_timer := 1/10, enemies := 0,
          pending_spawns := 0, fruits_eaten := 0, score := 0, current_speed := 10 }
        (1/5) 2 (fun _ => true)).enemy_spawn_timer ∧
      (∀ s : SchedulerState, ∀ b : ℚ,
        schedule_enemy_spawn_delay s b =
          max (45/100) (b / max (3/5) (spawnDifficulty s / spawnUrgency s)) ∧
        45/100 ≤ schedule_enemy_spawn_delay s b) ∧
      ((tick_enemy_spawn_timer
          { enemy_spawns_active := true, enemy_spawn_timer := 1/10, enemies := 0,
            pending_spawns := 0, fruits_eaten := 0, score := 0, current_speed := 10 }
          (1/5) 2 (fun _ => true)).enemy_spawn_timer = 2/5 ∨
        ∃ s : SchedulerState,
          (tick_enemy_spawn_timer
            { enemy_spawns_active := true, enemy_spawn_timer := 1/10, enemies := 0,
              pending_spawns := 0, fruits_eaten := 0, score := 0, current_speed := 10 }
            (1/5) 2 (fun _ => true)).enemy_spawn_timer =
            schedule_enemy_spawn_delay s 2)) :=
  C6_spawn_timer_schedule _ _ _ _ rfl (by norm_num) (by norm_num) (by norm_num)

/-- C6 counterexample: with spawning active, a due countdown, a positive
deficit, and every spawn attempt failing, the scheduler assigns `0.4` s to the
spawn countdown timer — strictly below the claimed `0.45` s lower bound. -/
theorem C6_failed_batch_retry_below_bound :
    (tick_enemy_spawn_timer
        { enemy_spawns_active := true, enemy_spawn_timer := 1/10, enemies := 0,
          pending_spawns := 0, fruits_eaten := 2, score := 20, current_speed := 10 }
        (1/5) 2 (fun _ => false)).enemy_spawns_active = true ∧
    (tick_enemy_spawn_timer
        { enemy_spawns_active := true, enemy_spawn_timer := 1/10, enemies := 0,
          pending_spawns := 0, fruits_eaten := 2, score := 20, current_speed := 10 }
        (1/5) 2 (fun _ => false)).enemy_spawn_timer = 2/5 ∧
    ¬ ((45/100 : ℚ) ≤ 2/5) := by
  rw [tick_on_expiry _ _ _ _ rfl (by norm_num) (by norm_num)]
  have hdes : desired_enemy_count 2 20 = 2 := by norm_num [desired_enemy_count]
  simp only [hdes]
  norm_num [spawnBatchSuccesses_all_fail (fun _ => false) (fun _ => rfl)]

/-! ## Simulation core (`game.py`)

The `NeonSnake` class state is embedded below restricted to the fields its
logic reads or writes inside `step` and the spawn helpers; the purely visual
pools (trail, particles, ripples, washes, shake) and audio calls are omitted —
within `step` they never feed back into the fields modelled here.  Randomness
is injected through `StepEnv`. -/

inductive Direction
  | up
  | down
  | left
  | right
deriving DecidableEq, Repr

/-- `config.DIRECTIONS`. -/
def directionVec : Direction → ℤ × ℤ
  | .up => (0, -1)
  | .down => (0, 1)
  | .left => (-1, 0)
  | .right => (1, 0)

inductive MatchState
  | running
  | paused
  | game_over
deriving DecidableEq, Repr

/-- `game.BonusFruit`. -/
structure BonusFruit where
  pos : ℤ × ℤ
  timer : ℚ
deriving DecidableEq, Repr

structure Game where
  head : ℤ × ℤ
  snake_blocks : List (ℤ × ℤ)
  direction : Direction
  pending_direction : Direction
  state : MatchState
  fruit_pos : ℤ × ℤ
  bonus : Option BonusFruit
  score : ℕ
  fruits_eaten : ℕ
  high_score : ℕ
  current_speed : ℚ
  move_interval : ℚ
  enemy_spawns_active : Bool
  enemy_spawn_timer : ℚ
  enemies : ℕ
  pending_spawns : ℕ
deriving DecidableEq, Repr

/-- The random draws one `step` call may consume. -/
structure StepEnv where
  new_fruit_pos : ℤ × ℤ
  bonus_roll : ℚ
  bonus_choice : ℕ
  bonus_roll2 : ℚ
  bonus_choice2 : ℕ
  base_delay : ℚ
deriving Repr

/-- `NeonSnake._update_speed`. -/
def update_speed (g : Game) : Game :=
  let target0 : ℚ :=
    if SPEED_STEP ≤ 0 then MOVES_PER_SECOND
    else MOVES_PER_SECOND + (g.score : ℚ) / SPEED_STEP
  let target := min MAX_MOVES_PER_SECOND (max 1 target0)
  { g with current_speed := target, move_interval := 1 / target }

/-- `dist = (abs(x - head_x) + abs(y - head_y)) // BLOCK` of
`_reachable_bonus_spots`: grid steps of Manhattan distance. -/
def manhattanSteps (head p : ℤ × ℤ) : ℕ :=
  ((p.1 - head.1).natAbs + (p.2 - head.2).natAbs) / BLOCK.toNat

/-- `range(0, WINDOW_SIZE, BLOCK)`: the 30 grid-aligned coordinates. -/
def gridCoords : List ℤ := (List.range 30).map (fun i => BLOCK * i)

/-- `NeonSnake._reachable_bonus_spots`. -/
def reachable_bonus_spots (head : ℤ × ℤ) (snake_blocks : List (ℤ × ℤ))
    (fruit_pos : ℤ × ℤ) (move_interval : ℚ) : List (ℤ × ℤ) :=
  let max_steps : ℤ := max 1 (pyTrunc (BONUS_DURATION / move_interval) - 1)
  gridCoords.flatMap (fun x =>
    gridCoords.filterMap (fun y =>
      if (x, y) ∈ snake_blocks ∨ (x, y) = fruit_pos then none
      else if (manhattanSteps head (x, y) : ℤ) ≤ max_steps then some (x, y)
      else none))

/-- `NeonSnake._maybe_spawn_bonus`, with `random.random()` injected as `roll`
and `random.choice` injected as an index. -/
def maybe_spawn_bonus (chance : ℚ) (roll : ℚ) (choice : ℕ) (g : Game) : Game :=
  if g.bonus.isSome ∨ chance < roll then g
  else
    let options := reachable_bonus_spots g.head g.snake_blocks g.fruit_pos g.move_interval
    if options.isEmpty then g
    else
      { g with
        bonus := some
          { pos := options.getD (choice % options.length) (0, 0)
            timer := BONUS_DURATION } }

/-- `NeonSnake._handle_bonus_pickup` (visual/audio effects omitted). -/
def handle_bonus_pickup (env : StepEnv) (g : Game) : Game :=
  match g.bonus with
  | none => g
  | some _ =>
    let g1 := { g with bonus := none, score := g.score + BONUS_POINTS }
    let g2 := update_speed g1
    maybe_spawn_bonus (35/100) env.bonus_roll2 env.bonus_choice2 g2

/-- The `SchedulerState` view of a `Game`. -/
def gameSched (g : Game) : SchedulerState :=
  { enemy_spawns_active := g.enemy_spawns_active
    enemy_spawn_timer := g.enemy_spawn_timer
    enemies := g.enemies
    pending_spawns := g.pending_spawns
    fruits_eaten := g.fruits_eaten
    score := g.score
    current_speed := g.current_speed }

/-- `NeonSnake._start_enemy_spawns` (+ the `_schedule_enemy_spawn` it calls). -/
def start_enemy_spawns (base_delay : ℚ) (g : Game) : Game :=
  if g.enemy_spawns_active then g
  else
    let g1 := { g with enemy_spawns_active := true }
    { g1 with enemy_spawn_timer := schedule_enemy_spawn_delay (gameSched g1) base_delay }

/-- `NeonSnake.game_over` (audio/shake/file write omitted). -/
def game_over (g : Game) : Game :=
  if g.state = MatchState.game_over then g
  else
    let g1 := { g with state := MatchState.game_over }
    if g1.high_score < g1.score then { g1 with high_score := g1.score } else g1

/-- The wrapped head position `step` computes from the buffered direction. -/
def stepNewHead (g : Game) : ℤ × ℤ :=
  ((g.head.1 + (directionVec g.pending_direction).1 * BLOCK) % WINDOW_SIZE,
    (g.head.2 + (directionVec g.pending_direction).2 * BLOCK) % WINDOW_SIZE)

/-- `NeonSnake.step`: one fixed-step advance of the simulation. -/
def step (env : StepEnv) (g : Game) : Game :=
  let g0 := { g with direction := g.pending_direction }
  let d := directionVec g0.direction
  let new_head : ℤ × ℤ := ((g0.head.1 + d.1 * BLOCK) % WINDOW_SIZE,
    (g0.head.2 + d.2 * BLOCK) % WINDOW_SIZE)
  if new_head ∈ g0.snake_blocks then game_over g0
  else
    let g1 := { g0 with head := new_head, snake_blocks := new_head :: g0.snake_blocks }
    let g2 :=
      if g1.head = g1.fruit_pos then
        let ga := { g1 with score := g1.score + 10 }
        let gb := update_speed ga
        let gc := { gb with fruit_pos := env.new_fruit_pos }
        let gd := maybe_spawn_bonus BONUS_CHANCE env.bonus_roll env.bonus_choice gc
        let ge := { gd with fruits_eaten := gd.fruits_eaten + 1 }
        if ge.fruits_eaten = 1 then start_enemy_spawns env.base_delay ge else ge
      else if g1.bonus.any (fun b => g1.head = b.pos) then
        handle_bonus_pickup env g1
      else g1
    { g2 with
      snake_blocks :=
        if g2.snake_blocks.isEmpty then g2.snake_blocks else g2.snake_blocks.dropLast }

/-! Projection lemmas: which fields the helpers leave untouched. -/

@[simp] theorem update_speed_snake_blocks (g : Game) :
    (update_speed g).snake_blocks = g.snake_blocks := rfl

@[simp] theorem update_speed_head (g : Game) : (update_speed g).head = g.head := rfl

@[simp] theorem update_speed_state (g : Game) : (update_speed g).state = g.state := rfl

@[simp] theorem update_speed_score (g : Game) : (update_speed g).score = g.score := rfl

@[simp] theorem maybe_spawn_bonus_snake_blocks (c r : ℚ) (ch : ℕ) (g : Game) :
    (maybe_spawn_bonus c r ch g).snake_blocks = g.snake_blocks := by
  simp only [maybe_spawn_bonus]
  split_ifs <;> rfl

@[simp] theorem maybe_spawn_bonus_head (c r : ℚ) (ch : ℕ) (g : Game) :
    (maybe_spawn_bonus c r ch g).head = g.head := by
  simp only [maybe_spawn_bonus]
  split_ifs <;> rfl

@[simp] theorem maybe_spawn_bonus_state (c r : ℚ) (ch : ℕ) (g : Game) :
    (maybe_spawn_bonus c r ch g).state = g.state := by
  simp only [maybe_spawn_bonus]
  split_ifs <;> rfl

@[simp] theorem maybe_spawn_bonus_score (c r : ℚ) (ch : ℕ) (g : Game) :
    (maybe_spawn_bonus c r ch g).score = g.score := by
  simp only [maybe_spawn_bonus]
  split_ifs <;> rfl

@[simp] theorem maybe_spawn_bonus_fruits_eaten (c r : ℚ) (ch : ℕ) (g : Game) :
    (maybe_spawn_bonus c r ch g).fruits_eaten = g.fruits_eaten := by
  simp only [maybe_spawn_bonus]
  split_ifs <;> rfl

@[simp] theorem handle_bonus_pickup_snake_blocks (env : StepEnv) (g : Game) :
    (handle_bonus_pickup env g).snake_blocks = g.snake_blocks := by
  unfold handle_bonus_pickup
  cases g.bonus <;> simp

@[simp] theorem handle_bonus_pickup_head (env : StepEnv) (g : Game) :
    (handle_bonus_pickup env g).head = g.head := by
  unfold handle_bonus_pickup
  cases g.bonus <;> simp

@[simp] theorem handle_bonus_pickup_state (env : StepEnv) (g : Game) :
    (handle_bonus_pickup env g).state = g.state := by
  unfold handle_bonus_pickup
  cases g.bonus <;> simp

@[simp] theorem start_enemy_spawns_snake_blocks (b : ℚ) (g : Game) :
    (start_enemy_spawns b g).snake_blocks = g.snake_blocks := by
  simp only [start_enemy_spawns]
  split_ifs <;> rfl

@[simp] theorem start_enemy_spawns_head (b : ℚ) (g : Game) :
    (start_enemy_spawns b g).head = g.head := by
  simp only [start_enemy_spawns]
  split_ifs <;> rfl

@[simp] theorem start_enemy_spawns_state (b : ℚ) (g : Game) :
    (start_enemy_spawns b g).state = g.state := by
  simp only [start_enemy_spawns]
  split_ifs <;> rfl

@[simp] theorem start_enemy_spawns_score (b : ℚ) (g : Game) :
    (start_enemy_spawns b g).score = g.score := by
  simp only [start_enemy_spawns]
  split_ifs <;> rfl

@[simp] theorem game_over_snake_blocks (g : Game) :
    (game_over g).snake_blocks = g.snake_blocks := by
  simp only [game_over]
  split_ifs <;> rfl

@[simp] theorem game_over_head (g : Game) : (game_over g).head = g.head := by
  simp only [game_over]
  split_ifs <;> rfl

@[simp] theorem game_over_state (g : Game) :
    (game_over g).state = MatchState.game_over := by
  simp only [game_over]
  split_ifs with h h2
  · exact h
  · rfl
  · rfl

/-- A collision step delegates to `game_over` on the state with the buffered
direction applied, committing neither head nor body. -/
theorem step_eq_of_collision (env : StepEnv) (g : Game)
    (h : stepNewHead g ∈ g.snake_blocks) :
    step env g = game_over { g with direction := g.pending_direction } := by
  simp only [step]
  rw [if_pos (by simpa [stepNewHead] using h)]

/-- A collision-free step commits the new head and drops the tail; the match
state is untouched. -/
theorem step_spec_of_no_collision (env : StepEnv) (g : Game)
    (h : stepNewHead g ∉ g.snake_blocks) :
    (step env g).snake_blocks = (stepNewHead g :: g.snake_blocks).dropLast ∧
    (step env g).head = stepNewHead g ∧
    (step env g).state = g.state := by
  simp only [step]
  rw [if_neg (by simpa [stepNewHead] using h)]
  simp only [stepNewHead]
  refine ⟨?_, ?_, ?_⟩ <;> (split_ifs <;> simp_all)

/-- A collision-free step onto the fruit cell adds exactly 10 points. -/
theorem step_score_of_fruit (env : StepEnv) (g : Game)
    (h : stepNewHead g ∉ g.snake_blocks) (hf : stepNewHead g = g.fruit_pos) :
    (step env g).score = g.score + 10 := by
  simp only [step]
  rw [if_neg (by simpa [stepNewHead] using h)]
  rw [if_pos (by simpa [stepNewHead] using hf)]
  split_ifs <;> simp

/-- The scenario of spec §8 B: head at `(160, 80)` moving right, body length 3,
fruit directly ahead at `(176, 80)`. -/
def fruitAheadGame : Game :=
  { head := (160, 80)
    snake_blocks := [(160, 80), (144, 80), (128, 80)]
    direction := Direction.right
    pending_direction := Direction.right
    state := MatchState.running
    fruit_pos := (176, 80)
    bonus := none
    score := 0
    fruits_eaten := 0
    high_score := 0
    current_speed := 10
    move_interval := 1/10
    enemy_spawns_active := false
    enemy_spawn_timer := 0
    enemies := 0
    pending_spawns := 0 }

/-- Random draws for the scenario: the bonus roll fails (`1 > 0.45`), so no
bonus spawns. -/
def fruitAheadEnv : StepEnv :=
  { new_fruit_pos := (0, 16)
    bonus_roll := 1
    bonus_choice := 0
    bonus_roll2 := 1
    bonus_choice2 := 0
    base_delay := 2 }

/-- C1, exhibit of the divergence: stepping onto the fruit cell picks the fruit
up (score goes from 0 to 10), yet the body length stays 3 instead of growing to
4 — `step` pops the tail unconditionally, even on the fruit-pickup path. -/
theorem C1_fruit_step_does_not_grow :
    stepNewHead fruitAheadGame = fruitAheadGame.fruit_pos ∧
    (step fruitAheadEnv fruitAheadGame).score = 10 ∧
    fruitAheadGame.snake_blocks.length = 3 ∧
    (step fruitAheadEnv fruitAheadGame).snake_blocks.length = 3 := by
  have hnh : stepNewHead fruitAheadGame = (176, 80) := by decide
  have hmem : stepNewHead fruitAheadGame ∉ fruitAheadGame.snake_blocks := by decide
  refine ⟨by decide, ?_, by decide, ?_⟩
  · have := step_score_of_fruit fruitAheadEnv fruitAheadGame hmem (by decide)
    simpa [fruitAheadGame] using this
  · have := (step_spec_of_no_collision fruitAheadEnv fruitAheadGame hmem).1
    rw [this, hnh]
    decide

/-- C2: a running state with pairwise-distinct body cells keeps distinct body
cells after one step, and a step whose new head hits the body ends the match
without committing the head: state becomes `game_over`, head and body list are
unchanged. -/
theorem C2_step_distinctness_and_self_collision (env : StepEnv) (g : Game)
    (_hrun : g.state = MatchState.running) (hnd : g.snake_blocks.Nodup) :
    (step env g).snake_blocks.Nodup ∧
    (stepNewHead g ∈ g.snake_blocks →
      (step env g).state = MatchState.game_over ∧
      (step env g).head = g.head ∧
      (step env g).snake_blocks = g.snake_blocks) := by
  by_cases hmem : stepNewHead g ∈ g.snake_blocks
  · rw [step_eq_of_collision env g hmem]
    refine ⟨by simpa using hnd, fun _ => ⟨by simp, by simp, by simp⟩⟩
  · obtain ⟨hsnake, -, -⟩ := step_spec_of_no_collision env g hmem
    refine ⟨?_, fun hc => absurd hc hmem⟩
    rw [hsnake]
    exact (List.dropLast_sublist _).nodup (List.nodup_cons.mpr ⟨hmem, hnd⟩)

theorem C2_step_distinctness_witness :
    ((step fruitAheadEnv fruitAheadGame).snake_blocks.Nodup ∧
      (stepNewHead fruitAheadGame ∈ fruitAheadGame.snake_blocks →
        (step fruitAheadEnv fruitAheadGame).state = MatchState.game_over ∧
        (step fruitAheadEnv fruitAheadGame).head = fruitAheadGame.head ∧
        (step fruitAheadEnv fruitAheadGame).snake_blocks = fruitAheadGame.snake_blocks)) :=
  C2_step_distinctness_and_self_collision fruitAheadEnv fruitAheadGame rfl (by decide)

/-- Membership in the bonus-candidate enumeration, unpacked: the cell avoids
the snake and the fruit and obeys the (clamped) step bound. -/
theorem mem_reachable_bonus_spots {head fruit : ℤ × ℤ} {snake : List (ℤ × ℤ)}
    {mi : ℚ} {p : ℤ × ℤ} (hp : p ∈ reachable_bonus_spots head snake fruit mi) :
    p ∉ snake ∧ p ≠ fruit ∧
      (manhattanSteps head p : ℤ) ≤ max 1 (pyTrunc (BONUS_DURATION / mi) - 1) := by
  simp only [reachable_bonus_spots, List.mem_flatMap, List.mem_filterMap] at hp
  obtain ⟨x, hx, y, hy, hf⟩ := hp
  split_ifs at hf with h1 h2
  rw [Option.some_inj] at hf
  subst hf
  push_neg at h1
  exact ⟨h1.1, h1.2, h2⟩

/-- Conversely, a grid-aligned cell that avoids the snake and the fruit and
obeys the step bound is enumerated. -/
theorem mem_reachable_bonus_spots_of {head fruit : ℤ × ℤ} {snake : List (ℤ × ℤ)}
    {mi : ℚ} (x y : ℤ) (hx : x ∈ gridCoords) (hy : y ∈ gridCoords)
    (hns : ((x, y) : ℤ × ℤ) ∉ snake) (hnf : ((x, y) : ℤ × ℤ) ≠ fruit)
    (hd : (manhattanSteps head (x, y) : ℤ) ≤
      max 1 (pyTrunc (BONUS_DURATION / mi) - 1)) :
    ((x, y) : ℤ × ℤ) ∈ reachable_bonus_spots head snake fruit mi := by
  simp only [reachable_bonus_spots, List.mem_flatMap, List.mem_filterMap]
  refine ⟨x, hx, y, hy, ?_⟩
  rw [if_neg (by tauto), if_pos hd]

/-- C7: with the per-step interval in its reachable range (positive and at most
one second — the speed clamp keeps `current_speed ≥ 1`), every enumerated
bonus-placement candidate is within
`floor(bonus_duration / move_interval) - 1` Manhattan grid steps of the head. -/
theorem C7_bonus_candidates_within_step_bound (head fruit : ℤ × ℤ)
    (snake : List (ℤ × ℤ)) (mi : ℚ) (h0 : 0 < mi) (h1 : mi ≤ 1) (p : ℤ × ℤ)
    (hp : p ∈ reachable_bonus_spots head snake fruit mi) :
    (manhattanSteps head p : ℤ) ≤ pyTrunc (BONUS_DURATION / mi) - 1 := by
  have h3 : (7/2 : ℚ) ≤ BONUS_DURATION / mi := by
    rw [BONUS_DURATION, le_div_iff₀ h0]
    nlinarith
  have hT : 3 ≤ pyTrunc (BONUS_DURATION / mi) := by
    rw [pyTrunc_nonneg_eq_floor (le_trans (by norm_num) h3)]
    exact Int.le_floor.mpr (le_trans (by norm_num) h3)
  have hmax : max 1 (pyTrunc (BONUS_DURATION / mi) - 1) =
      pyTrunc (BONUS_DURATION / mi) - 1 := max_eq_right (by omega)
  have hb := (mem_reachable_bonus_spots hp).2.2
  rwa [hmax] at hb

/-- The speed clamp of `_update_speed` keeps the per-step interval in `(0, 1]`,
which is the hypothesis `C7_bonus_candidates_within_step_bound` assumes about
"the current per-step interval". -/
theorem update_speed_move_interval_bounds (g : Game) :
    0 < (update_speed g).move_interval ∧ (update_speed g).move_interval ≤ 1 := by
  unfold update_speed
  have h1 : (1 : ℚ) ≤ min MAX_MOVES_PER_SECOND (max 1
      (if SPEED_STEP ≤ 0 then MOVES_PER_SECOND
       else MOVES_PER_SECOND + (g.score : ℚ) / SPEED_STEP)) :=
    le_min (by norm_num [MAX_MOVES_PER_SECOND]) (le_max_left _ _)
  have h0 : (0 : ℚ) < min MAX_MOVES_PER_SECOND (max 1
      (if SPEED_STEP ≤ 0 then MOVES_PER_SECOND
       else MOVES_PER_SECOND + (g.score : ℚ) / SPEED_STEP)) := by linarith
  exact ⟨by positivity, by rw [div_le_one h0]; exact h1⟩

/-- `0` and `16` are grid-aligned coordinates. -/
theorem zero_mem_gridCoords : (0 : ℤ) ∈ gridCoords := by decide

theorem sixteen_mem_gridCoords : (16 : ℤ) ∈ gridCoords := by decide

theorem C7_bonus_candidates_within_step_bound_witness :
    (manhattanSteps (0, 0) (16, 0) : ℤ) ≤ pyTrunc (BONUS_DURATION / 1) - 1 :=
  C7_bonus_candidates_within_step_bound (0, 0) (176, 80) [(160, 80)] 1
    (by norm_num) le_rfl (16, 0)
    (mem_reachable_bonus_spots_of 16 0 sixteen_mem_gridCoords zero_mem_gridCoords
      (by decide) (by decide)
      (by norm_num [manhattanSteps, BLOCK, pyTrunc, BONUS_DURATION]))

/-- C10: every enumerated bonus-placement candidate is distinct from every
snake body cell and from the current fruit position. -/
theorem C10_bonus_candidates_avoid_snake_and_fruit (head fruit : ℤ × ℤ)
    (snake : List (ℤ × ℤ)) (mi : ℚ) (p : ℤ × ℤ)
    (hp : p ∈ reachable_bonus_spots head snake fruit mi) :
    p ∉ snake ∧ p ≠ fruit :=
  ⟨(mem_reachable_bonus_spots hp).1, (mem_reachable_bonus_spots hp).2.1⟩

theorem C10_bonus_candidates_avoid_snake_and_fruit_witness :
    ((16, 0) : ℤ × ℤ) ∉ [((160 : ℤ), (80 : ℤ))] ∧ ((16, 0) : ℤ × ℤ) ≠ (176, 80) :=
  C10_bonus_candidates_avoid_snake_and_fruit (0, 0) (176, 80) [(160, 80)] (7/2)
    (16, 0)
    (mem_reachable_bonus_spots_of 16 0 sixteen_mem_gridCoords zero_mem_gridCoords
      (by decide) (by decide)
      (by norm_num [manhattanSteps, BLOCK, pyTrunc, BONUS_DURATION]))

/-! ## Fruit spawning (`NeonSnake._random_fruit_pos`) -/

/-- The four excluded corner cells. -/
def cornerCells : List (ℤ × ℤ) :=
  [(0, 0), (0, WINDOW_SIZE - BLOCK), (WINDOW_SIZE - BLOCK, 0),
    (WINDOW_SIZE - BLOCK, WINDOW_SIZE - BLOCK)]

/-- `NeonSnake._random_fruit_pos` with the stream of
`(randrange(0, max_cells), randrange(0, max_cells))` draws injected; the
source's `while True` loop becomes recursion on the remaining draws, `none`
standing for draws exhausted (the source would keep spinning). -/
def random_fruit_pos (snake_blocks : List (ℤ × ℤ)) :
    List (ℕ × ℕ) → Option (ℤ × ℤ)
  | [] => none
  | c :: rest =>
    let pos : ℤ × ℤ := ((c.1 : ℤ) * BLOCK, (c.2 : ℤ) * BLOCK)
    if pos ∈ cornerCells then random_fruit_pos snake_blocks rest
    else if pos ∈ snake_blocks then random_fruit_pos snake_blocks rest
    else some pos

/-- C9: every fruit position the spawner produces is grid-aligned, is none of
the four corner cells, and does not coincide with any snake body cell. -/
theorem C9_random_fruit_pos_valid (snake_blocks : List (ℤ × ℤ))
    (draws : List (ℕ × ℕ)) (p : ℤ × ℤ)
    (h : random_fruit_pos snake_blocks draws = some p) :
    (BLOCK ∣ p.1 ∧ BLOCK ∣ p.2) ∧ p ∉ cornerCells ∧ p ∉ snake_blocks := by
  induction draws with
  | nil => exact absurd h (by simp [random_fruit_pos])
  | cons c rest ih =>
    rw [random_fruit_pos] at h
    split_ifs at h with h1 h2
    · exact ih h
    · exact ih h
    · rw [Option.some_inj] at h
      subst h
      exact ⟨⟨dvd_mul_left BLOCK _, dvd_mul_left BLOCK _⟩, h1, h2⟩

theorem C9_random_fruit_pos_valid_witness :
    ((BLOCK ∣ ((32 : ℤ), (48 : ℤ)).1 ∧ BLOCK ∣ ((32 : ℤ), (48 : ℤ)).2) ∧
      ((32 : ℤ), (48 : ℤ)) ∉ cornerCells ∧
      ((32 : ℤ), (48 : ℤ)) ∉ [((0 : ℤ), (0 : ℤ)), ((32 : ℤ), (32 : ℤ))]) :=
  C9_random_fruit_pos_valid [(0, 0), (32, 32)] [(0, 0), (2, 3)] (32, 48) (by decide)

/-! ## Synthesizer (`audio.py`)

`AudioEngine._render_patch` embedded per sample index, before peak
normalisation and volume scaling.  `math.sin(two_pi * x)` is abstracted as an
injected oracle `sin2pi` (applied to the phase in cycles `x`), and the
`random.random()` noise stream as `noise_draw` — the spec itself asks for an
injectable random source.  All claims proved below hold for every oracle. -/

/-- `audio.SynthPatch`. -/
structure SynthPatch where
  freq : ℚ
  duration_ms : ℤ
  harmonics : List (ℚ × ℚ) := [(1, 1)]
  sweep : ℚ := 0
  noise : ℚ := 0
  attack : ℚ := 2/100
  decay : ℚ := 15/100
  release : ℚ := 2/10
  sustain_level : ℚ := 6/10
  vibrato_rate : ℚ := 0
  vibrato_depth : ℚ := 0
  volume : ℚ := 1/2
  waveform : String := "square"
  bitcrush_levels : ℤ := 0
  fade_ms : ℤ := 18
  mix_volume : ℚ := 4/10
  pulse_width : ℚ := 1/2
deriving Repr

/-- `sample_count = max(1, int(sample_rate * patch.duration_ms / 1000))`. -/
def sampleCount (sample_rate : ℤ) (p : SynthPatch) : ℕ :=
  (max 1 (pyTrunc (((sample_rate * p.duration_ms : ℤ) : ℚ) / 1000))).toNat

/-- `attack = int(sample_count * patch.attack)`. -/
def attackSamples (N : ℕ) (p : SynthPatch) : ℤ := pyTrunc ((N : ℚ) * p.attack)

/-- `decay = int(sample_count * patch.decay)`. -/
def decaySamples (N : ℕ) (p : SynthPatch) : ℤ := pyTrunc ((N : ℚ) * p.decay)

/-- `release = int(sample_count * patch.release)`. -/
def releaseSamples (N : ℕ) (p : SynthPatch) : ℤ := pyTrunc ((N : ℚ) * p.release)

/-- `sustain_start = min(sample_count, attack + decay)`. -/
def sustainStart (N : ℕ) (p : SynthPatch) : ℤ :=
  min (N : ℤ) (attackSamples N p + decaySamples N p)

/-- `sustain_end = max(sustain_start, sample_count - release)`. -/
def sustainEnd (N : ℕ) (p : SynthPatch) : ℤ :=
  max (sustainStart N p) ((N : ℤ) - releaseSamples N p)

/-- The ADSR branch of the per-sample loop. -/
def envelopeAt (p : SynthPatch) (N : ℕ) (idx : ℕ) : ℚ :=
  if attackSamples N p ≠ 0 ∧ (idx : ℤ) < attackSamples N p then
    (idx : ℚ) / (attackSamples N p : ℚ)
  else if decaySamples N p ≠ 0 ∧ (idx : ℤ) < sustainStart N p then
    1 - (1 - p.sustain_level) * (((idx : ℚ) - (attackSamples N p : ℚ)) / (decaySamples N p : ℚ))
  else if (idx : ℤ) < sustainEnd N p then p.sustain_level
  else if 0 < releaseSamples N p then
    p.sustain_level * (1 - ((idx : ℚ) - (sustainEnd N p : ℚ)) / ((max 1 (releaseSamples N p) : ℤ) : ℚ))
  else 0

/-- One harmonic's waveform sample (`square` / `triangle` / sine fallback). -/
def waveAt (p : SynthPatch) (sin2pi : ℚ → ℚ) (freq t mult : ℚ) : ℚ :=
  let voice_freq := freq * mult
  let cycle_pos := fract (voice_freq * t)
  if p.waveform = "square" then
    let pulse := max (5/100) (min (95/100) p.pulse_width)
    if cycle_pos < pulse then 1 else -1
  else if p.waveform = "triangle" then 4 * |cycle_pos - 1/2| - 1
  else sin2pi (voice_freq * t)

/-- `val = sample_val * max(0.0, env)`: the enveloped sample before the
bitcrush quantization. -/
def envelopedSample (sample_rate : ℤ) (p : SynthPatch) (sin2pi : ℚ → ℚ)
    (noise_draw : ℕ → ℚ) (idx : ℕ) : ℚ :=
  let N := sampleCount sample_rate p
  let t : ℚ := (idx : ℚ) / (sample_rate : ℚ)
  let progress : ℚ := if N ≠ 0 then (idx : ℚ) / (N : ℚ) else 0
  let freq0 := p.freq + p.sweep * progress
  let freq :=
    if 0 < p.vibrato_rate ∧ p.vibrato_depth ≠ 0 then
      freq0 + sin2pi (p.vibrato_rate * t) * p.vibrato_depth
    else freq0
  let sample_val :=
    p.harmonics.foldl (fun acc hw => acc + hw.2 * waveAt p sin2pi freq t hw.1) 0
  let sample_val :=
    if 0 < p.noise then sample_val + p.noise * (noise_draw idx * 2 - 1)
    else sample_val
  sample_val * max 0 (envelopeAt p N idx)

/-- `samples[idx]`: the enveloped sample after the optional bitcrush
quantization `round(val * levels) / levels` (before peak normalisation and
volume scaling). -/
def renderedSampleValue (sample_rate : ℤ) (p : SynthPatch) (sin2pi : ℚ → ℚ)
    (noise_draw : ℕ → ℚ) (idx : ℕ) : ℚ :=
  let val := envelopedSample sample_rate p sin2pi noise_draw idx
  if 0 < p.bitcrush_levels then
    ((pyRound (val * (p.bitcrush_levels : ℚ)) : ℤ) : ℚ) / (p.bitcrush_levels : ℚ)
  else val

/-- C4 (amended): with `bitcrush_levels = L > 0` every quantized sample equals
`k / L` for an integer `k`; the claimed bound `k ∈ [-L, L]` holds whenever
the enveloped pre-quantization sample lies in `[-1, 1]`, but not in general
(harmonic weights may sum above 1). -/
theorem C4_bitcrush_grid (sample_rate : ℤ) (p : SynthPatch) (sin2pi : ℚ → ℚ)
    (noise_draw : ℕ → ℚ) (idx : ℕ) (hL : 0 < p.bitcrush_levels) :
    ∃ k : ℤ, renderedSampleValue sample_rate p sin2pi noise_draw idx =
        (k : ℚ) / (p.bitcrush_levels : ℚ) ∧
      (|envelopedSample sample_rate p sin2pi noise_draw idx| ≤ 1 →
        -p.bitcrush_levels ≤ k ∧ k ≤ p.bitcrush_levels) := by
  refine ⟨pyRound (envelopedSample sample_rate p sin2pi noise_draw idx *
    (p.bitcrush_levels : ℚ)), ?_, ?_⟩
  · rw [renderedSampleValue]
    rw [if_pos hL]
  · intro hv
    have hL1 : (0 : ℚ) < (p.bitcrush_levels : ℚ) := by exact_mod_cast hL
    obtain ⟨hlo, hhi⟩ := abs_le.mp hv
    constructor
    · apply le_pyRound
      rw [Int.cast_neg]
      nlinarith
    · apply pyRound_le
      nlinarith

/-- A patch whose single harmonic has weight 2: the enveloped sample reaches 2,
outside the claimed grid range. -/
def overdrivePatch : SynthPatch :=
  { freq := 1
    duration_ms := 1
    harmonics := [(1, 2)]
    sweep := 0
    noise := 0
    attack := 0
    decay := 0
    release := 0
    sustain_level := 1
    vibrato_rate := 0
    vibrato_depth := 0
    volume := 1
    waveform := "square"
    bitcrush_levels := 1
    fade_ms := 0
    mix_volume := 1
    pulse_width := 1/2 }

theorem overdrive_sample_eq_two :
    renderedSampleValue 32000 overdrivePatch (fun _ => 0) (fun _ => 0) 0 = 2 := by
  have hN : sampleCount 32000 overdrivePatch = 32 := by
    norm_num [sampleCount, overdrivePatch, pyTrunc]
    decide
  have henv : envelopedSample 32000 overdrivePatch (fun _ => 0) (fun _ => 0) 0 = 2 := by
    rw [envelopedSample, hN]
    norm_num [overdrivePatch, waveAt, fract, envelopeAt, attackSamples,
      decaySamples, releaseSamples, sustainStart, sustainEnd, pyTrunc]
  rw [renderedSampleValue, henv]
  norm_num [overdrivePatch, pyRound]

/-- C4 counterexample: for `overdrivePatch` (`L = 1`) the enveloped-and-
quantized sample at index 0 equals 2, which is `k/L` only for `k = 2 ∉ [-1, 1]`:
the claimed bound on `k` fails. -/
theorem C4_bitcrush_bound_fails :
    0 < overdrivePatch.bitcrush_levels ∧
    renderedSampleValue 32000 overdrivePatch (fun _ => 0) (fun _ => 0) 0 = 2 ∧
    ¬∃ k : ℤ, -overdrivePatch.bitcrush_levels ≤ k ∧
      k ≤ overdrivePatch.bitcrush_levels ∧
      renderedSampleValue 32000 overdrivePatch (fun _ => 0) (fun _ => 0) 0 =
        (k : ℚ) / (overdrivePatch.bitcrush_levels : ℚ) := by
  refine ⟨by norm_num [overdrivePatch], overdrive_sample_eq_two, ?_⟩
  rintro ⟨k, hk1, hk2, hk3⟩
  rw [overdrive_sample_eq_two] at hk3
  have hb : overdrivePatch.bitcrush_levels = 1 := rfl
  rw [hb] at hk1 hk2
  rw [hb] at hk3
  push_cast at hk3
  have : (k : ℚ) = 2 := by linarith [hk3]
  have hk : k = 2 := by exact_mod_cast this
  omega

theorem C4_bitcrush_grid_witness :
    ∃ k : ℤ, renderedSampleValue 32000 overdrivePatch (fun _ => 0) (fun _ => 0) 0 =
        (k : ℚ) / (overdrivePatch.bitcrush_levels : ℚ) ∧
      (|envelopedSample 32000 overdrivePatch (fun _ => 0) (fun _ => 0) 0| ≤ 1 →
        -overdrivePatch.bitcrush_levels ≤ k ∧ k ≤ overdrivePatch.bitcrush_levels) :=
  C4_bitcrush_grid 32000 overdrivePatch (fun _ => 0) (fun _ => 0) 0 (by norm_num [overdrivePatch])

end NeonSnake
